import Mathlib

/-!
Shallow embedding of `src/backend/src/services/health.service.js`.

The module keeps two in-memory counters (`requestCount`, `errorCount`), a
process start timestamp, and a set of prom-client metrics registered in the
process-wide registry.  JavaScript numbers are modelled as rationals (ℚ);
the integer counters, which the code only ever increments by one, are
modelled as ℕ.  Runtime/OS introspection values (`process.memoryUsage()`,
`process.cpuUsage()`, `os.*`, `process.env`, `Date.now()`) and the outcome
of the `fs.promises.access('./logs', W_OK)` probe are supplied by an
environment record `Env`; prom-client's `register.metrics()` serializer is
an external collaborator and appears in `Env` as an abstract rendering
function on registry states.
-/

namespace HealthService

/-- A JavaScript value appearing where the source mixes strings and numbers
(the `process.env.PORT || 5001` expression yields a string when the variable
is a non-empty string and the number 5001 otherwise). -/
inductive JSValue where
  | str : String → JSValue
  | num : ℚ → JSValue
deriving DecidableEq

/-- The fields of `process.memoryUsage()` that the source reads (bytes). -/
structure MemUsage where
  heapUsed : ℚ
  heapTotal : ℚ
  external : ℚ
deriving DecidableEq

/-- State of the prom-client registry restricted to the five metrics this
module registers: the labelled request counter, the labelled duration
histogram (modelled as the list of recorded observations per label pair),
the three gauges, and the flag that `collectDefaultMetrics()` ran at module
initialization. -/
structure Registry where
  httpRequestsTotal : String × String × String → ℕ
  httpRequestDuration : String × String → List ℚ
  activeConnections : ℚ
  memoryUsageGauge : String → ℚ
  cpuUsageGauge : ℚ
  defaultMetricsCollected : Bool

/-- Bucket boundaries configured for `http_request_duration_seconds`. -/
def httpRequestDurationBuckets : List ℚ := [1 / 10, 1 / 2, 1, 2, 5, 10]

/-- The runtime/OS/environment inputs a call can observe, plus the external
prom-client text serializer (`register.metrics()`) as an abstract function
of the registry state. -/
structure Env where
  memUsage : MemUsage
  cpuUser : ℚ
  cpuSystem : ℚ
  nowMillis : ℚ
  isoTimestamp : String
  platform : String
  arch : String
  nodeVersion : String
  loadAvg : List ℚ
  numCpus : ℕ
  pid : ℕ
  ppid : ℕ
  title : String
  argv : List String
  nodeEnv : Option String
  portEnv : Option String
  logsWritable : Bool
  renderRegistry : Registry → String

/-- The module-level mutable state: `startTime`, `requestCount`,
`errorCount` and the registered metrics. -/
structure State where
  startTime : ℚ
  requestCount : ℕ
  errorCount : ℕ
  registry : Registry

/-- Registry as built at module initialization: all counters at zero, no
histogram observations, gauges at zero, default metrics collection done. -/
def initRegistry : Registry :=
  { httpRequestsTotal := fun _ => 0
    httpRequestDuration := fun _ => []
    activeConnections := 0
    memoryUsageGauge := fun _ => 0
    cpuUsageGauge := 0
    defaultMetricsCollected := true }

/-- Module state right after initialization (`startTime = Date.now()`,
both counters zero). -/
def initState (start : ℚ) : State :=
  { startTime := start, requestCount := 0, errorCount := 0, registry := initRegistry }

/-- `Math.floor`. -/
def jsFloor (q : ℚ) : ℤ := ⌊q⌋

/-- `Math.round` (round half toward positive infinity). -/
def jsRound (q : ℚ) : ℤ := ⌊q + 1 / 2⌋

/-- `Number.prototype.toFixed(2)` for a non-negative value: round to the
nearest hundredth (ties up) and print with exactly two decimals. -/
def toFixed2 (q : ℚ) : String :=
  let np : ℕ := (⌊q * 100 + 1 / 2⌋).toNat
  toString (np / 100) ++ "." ++
    (if np % 100 < 10 then "0" ++ toString (np % 100) else toString (np % 100))

/-- `incrementRequestCount(method, route, statusCode)`: bump the in-memory
request counter and the `http_requests_total` counter at the given label
triple. -/
def incrementRequestCount (method route statusCode : String) (s : State) : State :=
  { s with
    requestCount := s.requestCount + 1
    registry :=
      { s.registry with
        httpRequestsTotal := fun l =>
          if l = (method, route, statusCode) then s.registry.httpRequestsTotal l + 1
          else s.registry.httpRequestsTotal l } }

/-- `incrementErrorCount()`: bump the in-memory error counter only. -/
def incrementErrorCount (s : State) : State :=
  { s with errorCount := s.errorCount + 1 }

/-- `recordRequestDuration(method, route, duration)`: observe
`duration / 1000` (milliseconds converted to seconds) in the
`http_request_duration_seconds` histogram at the (method, route) labels. -/
def recordRequestDuration (method route : String) (duration : ℚ) (s : State) : State :=
  { s with
    registry :=
      { s.registry with
        httpRequestDuration := fun l =>
          if l = (method, route) then s.registry.httpRequestDuration l ++ [duration / 1000]
          else s.registry.httpRequestDuration l } }

/-- `updateActiveConnections(count)`: set the `active_connections` gauge. -/
def updateActiveConnections (count : ℚ) (s : State) : State :=
  { s with registry := { s.registry with activeConnections := count } }

/-- `updateMemoryUsage()`: read `process.memoryUsage()` and set the
`memory_usage_bytes` gauge at the three `type` label values. -/
def updateMemoryUsage (env : Env) (s : State) : State :=
  { s with
    registry :=
      { s.registry with
        memoryUsageGauge := fun t =>
          if t = "heap_used" then env.memUsage.heapUsed
          else if t = "heap_total" then env.memUsage.heapTotal
          else if t = "external" then env.memUsage.external
          else s.registry.memoryUsageGauge t } }

/-- `updateCpuUsage()`: read `process.cpuUsage()`, add user and system time,
divide by 1000000 and by the number of logical CPUs, and set the
`cpu_usage_percent` gauge. -/
def updateCpuUsage (env : Env) (s : State) : State :=
  { s with
    registry :=
      { s.registry with
        cpuUsageGauge := ((env.cpuUser + env.cpuSystem) / 1000000) / (env.numCpus : ℚ) } }

/-- The `memory` sub-object of the health snapshot. -/
structure MemoryReport where
  used : String
  total : String
  external : String
deriving DecidableEq

/-- The `cpu` sub-object of the health snapshot. -/
structure CpuReport where
  user : ℚ
  system : ℚ
deriving DecidableEq

/-- The `system` sub-object of the health snapshot. -/
structure SystemReport where
  platform : String
  arch : String
  nodeVersion : String
  loadAvg : List ℚ
deriving DecidableEq

/-- The `requests` sub-object of the health snapshot. -/
structure RequestsReport where
  total : ℕ
  errors : ℕ
  errorRate : String
deriving DecidableEq

/-- The object `getSystemHealth()` returns. -/
structure HealthReport where
  status : String
  timestamp : String
  uptime : String
  memory : MemoryReport
  cpu : CpuReport
  system : SystemReport
  requests : RequestsReport
deriving DecidableEq

/-- `getSystemHealth()`: a snapshot with fixed status `"healthy"`, formatted
uptime and memory figures, raw CPU times, platform data, and the request and
error totals with the computed error-rate percentage. -/
def getSystemHealth (env : Env) (s : State) : HealthReport :=
  { status := "healthy"
    timestamp := env.isoTimestamp
    uptime := toString (jsFloor ((env.nowMillis - s.startTime) / 1000)) ++ "s"
    memory :=
      { used := toString (jsRound (env.memUsage.heapUsed / 1024 / 1024)) ++ "MB"
        total := toString (jsRound (env.memUsage.heapTotal / 1024 / 1024)) ++ "MB"
        external := toString (jsRound (env.memUsage.external / 1024 / 1024)) ++ "MB" }
    cpu := { user := env.cpuUser, system := env.cpuSystem }
    system :=
      { platform := env.platform
        arch := env.arch
        nodeVersion := env.nodeVersion
        loadAvg := env.loadAvg }
    requests :=
      { total := s.requestCount
        errors := s.errorCount
        errorRate :=
          if s.requestCount > 0 then
            toFixed2 (((s.errorCount : ℚ) / (s.requestCount : ℚ)) * 100) ++ "%"
          else "0%" } }

/-- One entry of the list `checkDependencies()` returns. -/
structure Check where
  name : String
  status : String
  error : Option String
  usage : Option String
deriving DecidableEq

/-- `checkDependencies()`: the filesystem check first (the failure of the
`fs.promises.access('./logs', W_OK)` probe is caught and converted into an
unhealthy entry, never rethrown — the function is total in the outcome
`env.logsWritable` of the probe), then the memory-pressure check. -/
def checkDependencies (env : Env) : List Check :=
  [ if env.logsWritable then
      { name := "filesystem", status := "healthy", error := none, usage := none }
    else
      { name := "filesystem", status := "unhealthy",
        error := some "Cannot write to logs directory", usage := none },
    { name := "memory"
      status :=
        if env.memUsage.heapUsed < env.memUsage.heapTotal * (9 / 10) then "healthy"
        else "warning"
      error := none
      usage :=
        some (toString (jsRound ((env.memUsage.heapUsed / env.memUsage.heapTotal) * 100)) ++ "%") } ]

/-- The `process` sub-object of `getDetailedMetrics()`. -/
structure ProcessReport where
  pid : ℕ
  ppid : ℕ
  title : String
  argv : List String
deriving DecidableEq

/-- The `environment` sub-object of `getDetailedMetrics()`. -/
structure EnvironmentReport where
  nodeEnv : Option String
  port : JSValue
deriving DecidableEq

/-- The object `getDetailedMetrics()` returns: the health snapshot spread
into it (modelled as the nested `health` field) plus process identity and
the two environment values. -/
structure DetailedMetrics where
  health : HealthReport
  process : ProcessReport
  environment : EnvironmentReport

/-- `getDetailedMetrics()`. The port is `process.env.PORT || 5001`: the JS
`||` yields 5001 exactly when the variable is unset or the empty string
(the only falsy string), and the string itself otherwise. -/
def getDetailedMetrics (env : Env) (s : State) : DetailedMetrics :=
  { health := getSystemHealth env s
    process := { pid := env.pid, ppid := env.ppid, title := env.title, argv := env.argv }
    environment :=
      { nodeEnv := env.nodeEnv
        port :=
          match env.portEnv with
          | some p => if p = "" then JSValue.num 5001 else JSValue.str p
          | none => JSValue.num 5001 } }

/-- `getPrometheusMetrics()`: refresh the memory and CPU gauges, then render
the whole registry through the external serializer, returning the resulting
state and the rendered text unmodified. -/
def getPrometheusMetrics (env : Env) (s : State) : State × String :=
  let s1 := updateMemoryUsage env s
  let s2 := updateCpuUsage env s1
  (s2, env.renderRegistry s2.registry)

/-- The eight exported operations of the module, as abstract syntax for
stating state-transition properties. -/
inductive Op where
  | incReq (method route statusCode : String)
  | incErr
  | recordDuration (method route : String) (duration : ℚ)
  | updActive (count : ℚ)
  | updMem
  | updCpu
  | health
  | deps
  | detailed
  | prometheus

/-- The state after one exported operation runs.  The query operations
compute their result from the state and the environment and perform no
assignment to module state; `getPrometheusMetrics` mutates via its two
gauge refreshes. -/
def step (env : Env) (op : Op) (s : State) : State :=
  match op with
  | .incReq m r c => incrementRequestCount m r c s
  | .incErr => incrementErrorCount s
  | .recordDuration m r d => recordRequestDuration m r d s
  | .updActive c => updateActiveConnections c s
  | .updMem => updateMemoryUsage env s
  | .updCpu => updateCpuUsage env s
  | .health => s
  | .deps => s
  | .detailed => s
  | .prometheus => (getPrometheusMetrics env s).1

/-- A sequence of `incrementRequestCount` calls, by their label arguments. -/
def runRequests : List (String × String × String) → State → State
  | [], s => s
  | c :: rest, s => runRequests rest (incrementRequestCount c.1 c.2.1 c.2.2 s)

/-- An interleaving of `incrementRequestCount` calls (left, with their label
arguments) and `incrementErrorCount` calls (right). -/
def ReqOrErr : Type := (String × String × String) ⊕ Unit

/-- Run an interleaving of the two counter increments. -/
def runMixed : List ReqOrErr → State → State
  | [], s => s
  | Sum.inl c :: rest, s => runMixed rest (incrementRequestCount c.1 c.2.1 c.2.2 s)
  | Sum.inr _ :: rest, s => runMixed rest (incrementErrorCount s)

/-- A concrete environment for instantiating the theorems. -/
def baseEnv : Env :=
  { memUsage := { heapUsed := 50000000, heapTotal := 100000000, external := 1000000 }
    cpuUser := 100000
    cpuSystem := 50000
    nowMillis := 1000000
    isoTimestamp := "2026-01-01T00:00:00.000Z"
    platform := "linux"
    arch := "x64"
    nodeVersion := "v20.0.0"
    loadAvg := [0, 0, 0]
    numCpus := 4
    pid := 1234
    ppid := 1
    title := "node"
    argv := ["node", "server.js"]
    nodeEnv := some "production"
    portEnv := none
    logsWritable := true
    renderRegistry := fun _ => "" }

/-- The concrete environment in which `PORT` is set to the empty string. -/
def emptyPortEnv : Env := { baseEnv with portEnv := some "" }

/-- The concrete environment in which `PORT` is set to `"8080"`. -/
def portSetEnv : Env := { baseEnv with portEnv := some "8080" }

lemma runRequests_requestCount (calls : List (String × String × String)) (s : State) :
    (runRequests calls s).requestCount = s.requestCount + calls.length := by
  induction calls generalizing s with
  | nil => simp [runRequests]
  | cons c rest ih =>
    rw [runRequests, ih]
    simp [incrementRequestCount]
    omega

lemma runMixed_requestCount (ops : List ReqOrErr) (s : State) :
    (runMixed ops s).requestCount = s.requestCount + ops.countP Sum.isLeft := by
  induction ops generalizing s with
  | nil => simp [runMixed]
  | cons o rest ih =>
    cases o with
    | inl c =>
      rw [runMixed, ih]
      simp [incrementRequestCount, List.countP_cons]
      omega
    | inr u =>
      rw [runMixed, ih]
      simp [incrementErrorCount, List.countP_cons]

lemma runMixed_errorCount (ops : List ReqOrErr) (s : State) :
    (runMixed ops s).errorCount = s.errorCount + ops.countP Sum.isRight := by
  induction ops generalizing s with
  | nil => simp [runMixed]
  | cons o rest ih =>
    cases o with
    | inl c =>
      rw [runMixed, ih]
      simp [incrementRequestCount, List.countP_cons]
    | inr u =>
      rw [runMixed, ih]
      simp [incrementErrorCount, List.countP_cons]
      omega

/-- C1: after any sequence of `incrementRequestCount` calls starting from the
freshly initialized module state, `getSystemHealth()` reports
`requests.total` equal to the number of calls made. -/
theorem getSystemHealth_total_counts_calls (env : Env) (start : ℚ)
    (calls : List (String × String × String)) :
    (getSystemHealth env (runRequests calls (initState start))).requests.total =
      calls.length := by
  simp [getSystemHealth, runRequests_requestCount, initState]

/-- C2: after any interleaving of `incrementErrorCount` and
`incrementRequestCount` calls starting from the freshly initialized module
state, `getSystemHealth()` reports `requests.errorRate` equal to
`errors / total * 100` formatted to two decimal places followed by `%` when
`total > 0`, and exactly `"0%"` when `total` is zero. -/
theorem getSystemHealth_errorRate_formula (env : Env) (start : ℚ)
    (ops : List ReqOrErr) :
    (getSystemHealth env (runMixed ops (initState start))).requests.errorRate =
      if 0 < ops.countP Sum.isLeft then
        toFixed2 (((ops.countP Sum.isRight : ℚ) / (ops.countP Sum.isLeft : ℚ)) * 100) ++ "%"
      else "0%" := by
  simp only [getSystemHealth]
  rw [runMixed_requestCount, runMixed_errorCount]
  simp [initState]
  by_cases h : 0 < ops.countP Sum.isLeft
  · have h' : 0 + ops.countP Sum.isLeft > 0 := by omega
    simp [h, h']
  · have h' : ¬ 0 + ops.countP Sum.isLeft > 0 := by omega
    simp [h, h']

/-- C3: `recordRequestDuration(method, route, d)` appends the observation
`d / 1000` (seconds) to the `http_request_duration_seconds` histogram at the
(method, route) label pair, leaves every other label pair's observations
unchanged, and in particular a call with `d = 1500` records `1.5`. -/
theorem recordRequestDuration_observes_seconds (method route : String) (d : ℚ)
    (s : State) :
    ((recordRequestDuration method route d s).registry.httpRequestDuration
        (method, route) =
      s.registry.httpRequestDuration (method, route) ++ [d / 1000]) ∧
    ((recordRequestDuration method route 1500 s).registry.httpRequestDuration
        (method, route) =
      s.registry.httpRequestDuration (method, route) ++ [(3 : ℚ) / 2]) ∧
    (∀ l : String × String, l ≠ (method, route) →
      (recordRequestDuration method route d s).registry.httpRequestDuration l =
        s.registry.httpRequestDuration l) := by
  refine ⟨by simp [recordRequestDuration], ?_, ?_⟩
  · simp [recordRequestDuration]
    norm_num
  · intro l hl
    simp [recordRequestDuration, hl]

/-- C4: `checkDependencies()` is total in the outcome of the filesystem
probe (a failure is caught, never propagated): it always returns the
filesystem check first and the memory check second, with the filesystem
entry healthy when `./logs` is writable and otherwise unhealthy with the
fixed error message. -/
theorem checkDependencies_order_and_filesystem (env : Env) :
    (checkDependencies env).map Check.name = ["filesystem", "memory"] ∧
    (checkDependencies env).head? =
      some
        (if env.logsWritable then
          { name := "filesystem", status := "healthy", error := none, usage := none }
        else
          { name := "filesystem", status := "unhealthy",
            error := some "Cannot write to logs directory", usage := none }) := by
  cases h : env.logsWritable <;> simp [checkDependencies, h]

/-- C5: the memory entry of `checkDependencies()` has status `"healthy"`
exactly when heap-used is strictly below 90% of heap-total and status
`"warning"` exactly when heap-used ≥ 90% of heap-total, and it reports the
rounded percentage of heap used. -/
theorem checkDependencies_memory_status (env : Env) :
    ((checkDependencies env)[1]?.map Check.status = some "healthy" ↔
      env.memUsage.heapUsed < env.memUsage.heapTotal * (9 / 10)) ∧
    ((checkDependencies env)[1]?.map Check.status = some "warning" ↔
      env.memUsage.heapTotal * (9 / 10) ≤ env.memUsage.heapUsed) ∧
    (checkDependencies env)[1]?.map Check.usage =
      some (some (toString (jsRound ((env.memUsage.heapUsed / env.memUsage.heapTotal) * 100)) ++ "%")) := by
  by_cases h : env.memUsage.heapUsed < env.memUsage.heapTotal * (9 / 10)
  · simp [checkDependencies, h, not_le.2 h]
  · simp [checkDependencies, h, not_lt.1 h]

/-- C6: the `status` field of `getSystemHealth()` is the fixed string
`"healthy"`, for every module state and environment. -/
theorem getSystemHealth_status_always_healthy (env : Env) (s : State) :
    (getSystemHealth env s).status = "healthy" := rfl

/-- C7 counterexample: with `PORT` set to the empty string (a set variable),
`getDetailedMetrics()` reports the number 5001 and not the configured value,
so the claim that the port equals the configured `PORT` value whenever it is
set fails. -/
theorem getDetailedMetrics_port_empty_cex :
    emptyPortEnv.portEnv = some "" ∧
    (getDetailedMetrics emptyPortEnv (initState 0)).environment.port =
      JSValue.num 5001 ∧
    (getDetailedMetrics emptyPortEnv (initState 0)).environment.port ≠
      JSValue.str "" := by
  refine ⟨rfl, rfl, ?_⟩
  decide

/-- C7 amended: `getDetailedMetrics()` reports the configured `PORT` value
when it is set to a non-empty string, and the number 5001 when it is unset
or set to the empty string. -/
theorem getDetailedMetrics_port_amended (env : Env) (s : State) :
    ((env.portEnv = none →
        (getDetailedMetrics env s).environment.port = JSValue.num 5001) ∧
      (env.portEnv = some "" →
        (getDetailedMetrics env s).environment.port = JSValue.num 5001)) ∧
    (∀ p : String, env.portEnv = some p → p ≠ "" →
      (getDetailedMetrics env s).environment.port = JSValue.str p) := by
  refine ⟨⟨fun h => ?_, fun h => ?_⟩, fun p hp hne => ?_⟩
  · simp [getDetailedMetrics, h]
  · simp [getDetailedMetrics, h]
  · simp [getDetailedMetrics, hp, hne]

/-- C8: `getPrometheusMetrics()` first refreshes the memory and CPU gauges
(the resulting state is exactly `updateCpuUsage` after `updateMemoryUsage`,
so the three memory gauge readings and the CPU gauge hold the freshly read
values), leaves the rest of the registry — the counters, the histogram and
the default-metrics collection — untouched, and returns the external
serializer's rendering of that refreshed registry unmodified. -/
theorem getPrometheusMetrics_refreshes_then_renders (env : Env) (s : State) :
    (getPrometheusMetrics env s).1 = updateCpuUsage env (updateMemoryUsage env s) ∧
    (getPrometheusMetrics env s).1.registry.memoryUsageGauge "heap_used" =
      env.memUsage.heapUsed ∧
    (getPrometheusMetrics env s).1.registry.memoryUsageGauge "heap_total" =
      env.memUsage.heapTotal ∧
    (getPrometheusMetrics env s).1.registry.memoryUsageGauge "external" =
      env.memUsage.external ∧
    (getPrometheusMetrics env s).1.registry.cpuUsageGauge =
      ((env.cpuUser + env.cpuSystem) / 1000000) / (env.numCpus : ℚ) ∧
    (getPrometheusMetrics env s).1.registry.httpRequestsTotal =
      s.registry.httpRequestsTotal ∧
    (getPrometheusMetrics env s).1.registry.httpRequestDuration =
      s.registry.httpRequestDuration ∧
    (getPrometheusMetrics env s).1.registry.defaultMetricsCollected =
      s.registry.defaultMetricsCollected ∧
    (getPrometheusMetrics env s).2 =
      env.renderRegistry (getPrometheusMetrics env s).1.registry :=
  ⟨rfl, rfl, rfl, rfl, rfl, rfl, rfl, rfl, rfl⟩

/-- C9: every exported operation leaves each of the two in-memory counters
unchanged or increases it by exactly one; in particular no operation ever
decreases or resets either counter. -/
theorem step_counters_monotone (env : Env) (op : Op) (s : State) :
    ((step env op s).requestCount = s.requestCount ∨
      (step env op s).requestCount = s.requestCount + 1) ∧
    ((step env op s).errorCount = s.errorCount ∨
      (step env op s).errorCount = s.errorCount + 1) ∧
    s.requestCount ≤ (step env op s).requestCount ∧
    s.errorCount ≤ (step env op s).errorCount := by
  cases op <;>
    simp [step, incrementRequestCount, incrementErrorCount, recordRequestDuration,
      updateActiveConnections, updateMemoryUsage, updateCpuUsage, getPrometheusMetrics]

/-- C10: the query operations `getSystemHealth()`, `checkDependencies()` and
`getDetailedMetrics()` leave the request counter and the error counter
unchanged. -/
theorem queries_preserve_counters (env : Env) (s : State) :
    (step env Op.health s).requestCount = s.requestCount ∧
    (step env Op.health s).errorCount = s.errorCount ∧
    (step env Op.deps s).requestCount = s.requestCount ∧
    (step env Op.deps s).errorCount = s.errorCount ∧
    (step env Op.detailed s).requestCount = s.requestCount ∧
    (step env Op.detailed s).errorCount = s.errorCount :=
  ⟨rfl, rfl, rfl, rfl, rfl, rfl⟩

end HealthService
